import Mathlib

/-
Verification of the AOI geometry generator and DEM fetch client of app.py.

The program builds a rectangular or circular area of interest around a center
point using a geodesic destination primitive (geopy), derives a bounding box
from the polygon vertices (shapely bounds), and hands a rounded bounding box to
an HTTP raster client.  The geodesic library and the HTTP transport are
external dependencies of the program; they are embedded here as explicit
parameters (a GeoModel record of destination and distance functions, and a
request outcome function), while every algorithm of app.py itself is
translated directly.
-/

set_option maxHeartbeats 1000000

/-- Interface of the external geodesic library used by the app (geopy
geodesic distance).  `dest c d b` is the point reached from center `c`
travelling `d` kilometers at compass bearing `b`, as (latitude, longitude);
`dist p q` is the geodesic ground distance between two points. -/
structure GeoModel (K : Type) where
  dest : K × K → K → K → K × K
  dist : K × K → K × K → K

/-- Python range(start, stop, step) for a positive step: the list
start, start+step, ... below stop. -/
def pyRange (start stop step : ℕ) : List ℕ :=
  (List.range ((stop - start + step - 1) / step)).map (fun i => start + step * i)

/-- Ring closing performed by the shapely Polygon constructor: if the first
vertex differs from the last, the first vertex is appended at the end. -/
def closeRing {K : Type} [DecidableEq K] (pts : List (K × K)) : List (K × K) :=
  match pts with
  | [] => []
  | p :: rest => if (p :: rest).getLast? = some p then p :: rest else (p :: rest) ++ [p]

/-- shapely Polygon(points): the exterior ring, closed. -/
def mkPolygon {K : Type} [DecidableEq K] (pts : List (K × K)) : List (K × K) :=
  closeRing pts

/-- shapely box(minx, miny, maxx, maxy): the counterclockwise coordinate
sequence ((maxx, miny), (maxx, maxy), (minx, maxy), (minx, miny)), made into a
polygon.  Note that box does not sort its arguments. -/
def shBox {K : Type} [DecidableEq K] (minx miny maxx maxy : K) : List (K × K) :=
  mkPolygon [(maxx, miny), (maxx, maxy), (minx, maxy), (minx, miny)]

/-- Fold of min over a list with an initial value. -/
def listMin {K : Type} [LinearOrder K] (x : K) (xs : List K) : K :=
  xs.foldl min x

/-- Fold of max over a list with an initial value. -/
def listMax {K : Type} [LinearOrder K] (x : K) (xs : List K) : K :=
  xs.foldl max x

/-- shapely geometry.bounds: (minx, miny, maxx, maxy), the extrema over the
vertex coordinates of the geometry.  Vertices are (longitude, latitude)
pairs, so minx is the minimum longitude. -/
def geomBounds {K : Type} [LinearOrderedField K] (pts : List (K × K)) : K × K × K × K :=
  match pts with
  | [] => (0, 0, 0, 0) -- unused: the program never takes bounds of an empty geometry
  | p :: rest =>
      (listMin p.1 (rest.map Prod.fst), listMin p.2 (rest.map Prod.snd),
       listMax p.1 (rest.map Prod.fst), listMax p.2 (rest.map Prod.snd))

/-- Shape selector string used by the app for the rectangle branch. -/
def rectangleShape : String := "矩形 (Rectangle)"

/-- Shape selector string used by the app for the circle branch. -/
def circleShape : String := "圆形 (Circle)"

/-- The sampling loop of generate_geodesic_circle: for bearing in
range(0, 361, 5), compute the destination at radius_km kilometers from the
center and collect (longitude, latitude). -/
def circleSamplePoints {K : Type} [LinearOrderedField K]
    (G : GeoModel K) (lat lon radius_km : K) : List (K × K) :=
  (pyRange 0 361 5).map (fun (bearing : ℕ) =>
    let d := G.dest (lat, lon) radius_km (bearing : K)
    (d.2, d.1))

/-- generate_geodesic_circle(lat, lon, radius_km): the polygon of the sampled
destination points. -/
def generate_geodesic_circle {K : Type} [LinearOrderedField K] [DecidableEq K]
    (G : GeoModel K) (lat lon radius_km : K) : List (K × K) :=
  mkPolygon (circleSamplePoints G lat lon radius_km)

/-- generate_geometry(lat, lon, shape, width_km, height_km, radius_km): the
rectangle branch projects the center north, south, east and west by half the
requested extent and passes (west, south, east, north) to box; the circle
branch calls generate_geodesic_circle.  The label is built from the shape
parameters with the runtime number formatter fmt. -/
def generate_geometry {K : Type} [LinearOrderedField K] [DecidableEq K]
    (G : GeoModel K) (fmt : K → String) (lat lon : K) (shape : String)
    (width_km height_km radius_km : K) : List (K × K) × String :=
  if shape = rectangleShape then
    let north := (G.dest (lat, lon) (height_km / 2) 0).1
    let south := (G.dest (lat, lon) (height_km / 2) 180).1
    let east := (G.dest (lat, lon) (width_km / 2) 90).2
    let west := (G.dest (lat, lon) (width_km / 2) 270).2
    (shBox west south east north, fmt width_km ++ "x" ++ fmt height_km ++ "km")
  else
    (generate_geodesic_circle G lat lon radius_km, "R" ++ fmt radius_km ++ "km")

/-- Modelled from the spec: a rectangle-branch variant in which the four
projected coordinates are first sorted into (min lon, max lon) and
(min lat, max lat) and only then handed to box, as the specification sentence
describes.  It exists solely to be compared with generate_geometry, which
passes west, south, east, north to box unsorted. -/
def generate_geometry_sortedSpec {K : Type} [LinearOrderedField K] [DecidableEq K]
    (G : GeoModel K) (fmt : K → String) (lat lon : K) (shape : String)
    (width_km height_km radius_km : K) : List (K × K) × String :=
  if shape = rectangleShape then
    let north := (G.dest (lat, lon) (height_km / 2) 0).1
    let south := (G.dest (lat, lon) (height_km / 2) 180).1
    let east := (G.dest (lat, lon) (width_km / 2) 90).2
    let west := (G.dest (lat, lon) (width_km / 2) 270).2
    (shBox (min west east) (min south north) (max west east) (max south north),
     fmt width_km ++ "x" ++ fmt height_km ++ "km")
  else
    (generate_geodesic_circle G lat lon radius_km, "R" ++ fmt radius_km ++ "km")

/-- The bounds the app computes from the generated geometry
(bounds = geom.bounds in the main script). -/
def app_bounds {K : Type} [LinearOrderedField K] [DecidableEq K]
    (G : GeoModel K) (fmt : K → String) (lat lon : K) (shape : String)
    (width_km height_km radius_km : K) : K × K × K × K :=
  geomBounds ((generate_geometry G fmt lat lon shape width_km height_km radius_km).1)

/-- Python round(x, 5): round to the nearest multiple of 10⁻⁵, ties to the
even multiple. -/
def pyRound5 {K : Type} [LinearOrderedField K] [FloorRing K] (x : K) : K :=
  ((if x * 100000 - (⌊x * 100000⌋ : K) < 1 / 2 then ⌊x * 100000⌋
    else if 1 / 2 < x * 100000 - (⌊x * 100000⌋ : K) then ⌊x * 100000⌋ + 1
    else if ⌊x * 100000⌋ % 2 = 0 then ⌊x * 100000⌋
    else ⌊x * 100000⌋ + 1 : ℤ) : K) / 100000

/-- Request parameters built by fetch_opentopo_dem for the OpenTopography
globalDem endpoint. -/
structure DemParams (K : Type) where
  demType : String
  south : K
  north : K
  west : K
  east : K
  outputFormat : String
  apiKey : String

/-- Outcome of the HTTP GET performed inside the try block of
fetch_opentopo_dem: either a response object or a raised exception, which the
except branch turns into its message string. -/
structure HttpResponse where
  status : ℕ
  contentTypeHeader : Option String
  body : List ℕ
  text : String
  reason : String

inductive HttpOutcome where
  | resp (r : HttpResponse)
  | exc (message : String)

/-- Second component of the pair returned by fetch_opentopo_dem: raw response
bytes on success, an error string otherwise. -/
inductive FetchPayload where
  | content (bytes : List ℕ)
  | message (s : String)
deriving DecidableEq

/-- Leading-match test: the first list is a prefix of the second. -/
def listLeadMatch : List Char → List Char → Bool
  | [], _ => true
  | _ :: _, [] => false
  | p :: ps, c :: cs => p == c && listLeadMatch ps cs

/-- Substring containment on character lists, the Python `in` test on
strings. -/
def listContainsSub (pat : List Char) : List Char → Bool
  | [] => pat.isEmpty
  | c :: cs => listLeadMatch pat (c :: cs) || listContainsSub pat cs

/-- Python substring test: pat in s. -/
def strContainsSub (pat s : String) : Bool :=
  listContainsSub pat.data s.data

/-- fetch_opentopo_dem(bounds, api_key): round every bound to 5 decimals,
build the request parameters, and map the request outcome to a (flag, payload)
pair: (True, bytes) on a 200 response whose Content-Type does not contain
text/html; (False, message) for an HTML body, a non-200 status, or a raised
exception. -/
def opentopo_params {K : Type} [LinearOrderedField K] [FloorRing K]
    (bounds : K × K × K × K) (api_key : String) : DemParams K :=
  let minx := pyRound5 bounds.1
  let miny := pyRound5 bounds.2.1
  let maxx := pyRound5 bounds.2.2.1
  let maxy := pyRound5 bounds.2.2.2
  { demType := "SRTMGL1", south := miny, north := maxy, west := minx, east := maxx,
    outputFormat := "GTiff", apiKey := api_key }

def fetch_opentopo_dem {K : Type} [LinearOrderedField K] [FloorRing K]
    (bounds : K × K × K × K) (api_key : String)
    (doRequest : DemParams K → HttpOutcome) : Bool × FetchPayload :=
  match doRequest (opentopo_params bounds api_key) with
  | HttpOutcome.resp r =>
      if r.status = 200 then
        if strContainsSub ("text/html") (r.contentTypeHeader.getD ("")) then
          (false, FetchPayload.message (("API Error: ") ++ r.text.take 200))
        else
          (true, FetchPayload.content r.body)
      else
        (false, FetchPayload.message (("HTTP Error ") ++ toString r.status ++ (": ") ++ r.reason))
  | HttpOutcome.exc e => (false, FetchPayload.message e)

/-- Degenerate but inverse-consistent instance of the geodesic interface over
the rationals, used to instantiate the generic theorems: destinations move
along the coordinate axes for the four cardinal bearings and north otherwise,
and distance is the taxicab distance, so that a destination at distance d is
exactly d away from its start. -/
def taxiDist (p q : ℚ × ℚ) : ℚ := |q.1 - p.1| + |q.2 - p.2|

def flatGeo : GeoModel ℚ where
  dest := fun c d b =>
    if b = 0 then (c.1 + d, c.2)
    else if b = 90 then (c.1, c.2 + d)
    else if b = 180 then (c.1 - d, c.2)
    else if b = 270 then (c.1, c.2 - d)
    else (c.1 + d, c.2)
  dist := taxiDist

/-- Longitude normalization into (-180, 180], as the geodesic library applies
to destination longitudes. -/
def wrapLon (x : ℚ) : ℚ :=
  if 180 < x then x - 360 else if x ≤ -180 then x + 360 else x

/-- Variant of flatGeo whose eastward and westward destinations wrap across
the antimeridian, exhibiting projected east smaller than projected west. -/
def wrapGeo : GeoModel ℚ where
  dest := fun c d b =>
    if b = 0 then (c.1 + d, c.2)
    else if b = 90 then (c.1, wrapLon (c.2 + d))
    else if b = 180 then (c.1 - d, c.2)
    else if b = 270 then (c.1, wrapLon (c.2 - d))
    else (c.1 + d, c.2)
  dist := taxiDist

/-- Trivial number formatter for concrete instantiations. -/
def fmtQ : ℚ → String := fun _ => ""

/-
Helper lemmas about the list folds and the ring-closing step.
-/

theorem listMin_le_init {K : Type} [LinearOrderedField K] :
    ∀ (xs : List K) (x : K), listMin x xs ≤ x
  | [], _ => le_refl _
  | b :: xs, x => le_trans (listMin_le_init xs (min x b)) (min_le_left x b)

theorem listMin_le_of_mem {K : Type} [LinearOrderedField K] {a : K} :
    ∀ (xs : List K) (x : K), a ∈ xs → listMin x xs ≤ a
  | [], _, h => absurd h (List.not_mem_nil _)
  | b :: xs, x, h => by
    rcases List.mem_cons.mp h with h1 | h1
    · subst h1
      exact le_trans (listMin_le_init xs (min x a)) (min_le_right x a)
    · exact listMin_le_of_mem xs (min x b) h1

theorem le_listMin {K : Type} [LinearOrderedField K] {c : K} :
    ∀ (xs : List K) (x : K), c ≤ x → (∀ a ∈ xs, c ≤ a) → c ≤ listMin x xs
  | [], _, hx, _ => hx
  | b :: xs, x, hx, hall =>
    le_listMin xs (min x b) (le_min hx (hall b (List.mem_cons_self b xs)))
      (fun a ha => hall a (List.mem_cons_of_mem b ha))

theorem listMin_eq_init_or_mem {K : Type} [LinearOrderedField K] :
    ∀ (xs : List K) (x : K), listMin x xs = x ∨ listMin x xs ∈ xs
  | [], x => Or.inl rfl
  | b :: xs, x => by
    have hstep : listMin x (b :: xs) = listMin (min x b) xs := rfl
    rcases listMin_eq_init_or_mem xs (min x b) with h | h
    · rcases min_choice x b with h2 | h2
      · exact Or.inl (by rw [hstep, h, h2])
      · exact Or.inr (by rw [hstep, h, h2]; exact List.mem_cons_self b xs)
    · exact Or.inr (List.mem_cons_of_mem b (by rw [hstep]; exact h))

theorem init_le_listMax {K : Type} [LinearOrderedField K] :
    ∀ (xs : List K) (x : K), x ≤ listMax x xs
  | [], _ => le_refl _
  | b :: xs, x => le_trans (le_max_left x b) (init_le_listMax xs (max x b))

theorem le_listMax_of_mem {K : Type} [LinearOrderedField K] {a : K} :
    ∀ (xs : List K) (x : K), a ∈ xs → a ≤ listMax x xs
  | [], _, h => absurd h (List.not_mem_nil _)
  | b :: xs, x, h => by
    rcases List.mem_cons.mp h with h1 | h1
    · subst h1
      exact le_trans (le_max_right x a) (init_le_listMax xs (max x a))
    · exact le_listMax_of_mem xs (max x b) h1

theorem listMax_le {K : Type} [LinearOrderedField K] {c : K} :
    ∀ (xs : List K) (x : K), x ≤ c → (∀ a ∈ xs, a ≤ c) → listMax x xs ≤ c
  | [], _, hx, _ => hx
  | b :: xs, x, hx, hall =>
    listMax_le xs (max x b) (max_le hx (hall b (List.mem_cons_self b xs)))
      (fun a ha => hall a (List.mem_cons_of_mem b ha))

theorem listMax_eq_init_or_mem {K : Type} [LinearOrderedField K] :
    ∀ (xs : List K) (x : K), listMax x xs = x ∨ listMax x xs ∈ xs
  | [], x => Or.inl rfl
  | b :: xs, x => by
    have hstep : listMax x (b :: xs) = listMax (max x b) xs := rfl
    rcases listMax_eq_init_or_mem xs (max x b) with h | h
    · rcases max_choice x b with h2 | h2
      · exact Or.inl (by rw [hstep, h, h2])
      · exact Or.inr (by rw [hstep, h, h2]; exact List.mem_cons_self b xs)
    · exact Or.inr (List.mem_cons_of_mem b (by rw [hstep]; exact h))

theorem listMin_pair {K : Type} [LinearOrderedField K] (x y : K) (xs : List K)
    (hy : y ∈ xs) (hall : ∀ a ∈ xs, a = x ∨ a = y) : listMin x xs = min x y :=
  le_antisymm (le_min (listMin_le_init xs x) (listMin_le_of_mem xs x hy))
    (le_listMin xs x (min_le_left x y)
      (fun a ha => (hall a ha).elim (fun h => h ▸ min_le_left x y)
        (fun h => h ▸ min_le_right x y)))

theorem listMax_pair {K : Type} [LinearOrderedField K] (x y : K) (xs : List K)
    (hy : y ∈ xs) (hall : ∀ a ∈ xs, a = x ∨ a = y) : listMax x xs = max x y :=
  le_antisymm
    (listMax_le xs x (le_max_left x y)
      (fun a ha => (hall a ha).elim (fun h => h ▸ le_max_left x y)
        (fun h => h ▸ le_max_right x y)))
    (max_le (init_le_listMax xs x) (le_listMax_of_mem xs x hy))

theorem closeRing_ne_nil {K : Type} [DecidableEq K] {pts : List (K × K)}
    (h : pts ≠ []) : closeRing pts ≠ [] := by
  cases pts with
  | nil => exact absurd rfl h
  | cons p rest =>
    simp only [closeRing]
    split_ifs <;> simp

theorem closeRing_head_getLast {K : Type} [DecidableEq K] {pts : List (K × K)}
    (h : pts ≠ []) : (closeRing pts).head? = (closeRing pts).getLast? := by
  cases pts with
  | nil => exact absurd rfl h
  | cons p rest =>
    simp only [closeRing]
    split_ifs with hif
    · simp [hif]
    · rw [List.cons_append]
      rw [List.head?_cons]
      rw [show p :: (rest ++ [p]) = (p :: rest) ++ [p] from rfl, List.getLast?_concat]

theorem closeRing_eq_of_closed {K : Type} [DecidableEq K] {pts : List (K × K)}
    (h : pts.getLast? = pts.head?) : closeRing pts = pts := by
  cases pts with
  | nil => rfl
  | cons p rest =>
    simp only [closeRing]
    rw [List.head?_cons] at h
    rw [if_pos h]

theorem mem_closeRing {K : Type} [DecidableEq K] {q : K × K} {pts : List (K × K)} :
    q ∈ closeRing pts ↔ q ∈ pts := by
  cases pts with
  | nil => exact Iff.rfl
  | cons p rest =>
    simp only [closeRing]
    split_ifs
    · exact Iff.rfl
    · constructor
      · intro hq
        rcases List.mem_append.mp hq with h1 | h1
        · exact h1
        · simp at h1
          exact h1 ▸ List.mem_cons_self _ _
      · intro hq
        exact List.mem_append.mpr (Or.inl hq)

theorem length_le_closeRing {K : Type} [DecidableEq K] (pts : List (K × K)) :
    pts.length ≤ (closeRing pts).length := by
  cases pts with
  | nil => exact le_refl _
  | cons p rest =>
    simp only [closeRing]
    split_ifs
    · exact le_refl _
    · simp

/-
Structural lemmas about the two branches of generate_geometry and the
bounds computation.
-/

theorem generate_geometry_rect {K : Type} [LinearOrderedField K] [DecidableEq K]
    (G : GeoModel K) (fmt : K → String) (lat lon w h r : K) :
    generate_geometry G fmt lat lon rectangleShape w h r =
      (shBox ((G.dest (lat, lon) (w / 2) 270).2) ((G.dest (lat, lon) (h / 2) 180).1)
             ((G.dest (lat, lon) (w / 2) 90).2) ((G.dest (lat, lon) (h / 2) 0).1),
       fmt w ++ "x" ++ fmt h ++ "km") := by
  unfold generate_geometry
  rw [if_pos rfl]

theorem generate_geometry_notRect {K : Type} [LinearOrderedField K] [DecidableEq K]
    (G : GeoModel K) (fmt : K → String) (lat lon w h r : K) {shape : String}
    (hs : shape ≠ rectangleShape) :
    generate_geometry G fmt lat lon shape w h r =
      (generate_geodesic_circle G lat lon r, "R" ++ fmt r ++ "km") := by
  unfold generate_geometry
  rw [if_neg hs]

theorem geomBounds_shBox {K : Type} [LinearOrderedField K] [DecidableEq K]
    (minx miny maxx maxy : K) :
    geomBounds (shBox minx miny maxx maxy) =
      (min minx maxx, min miny maxy, max minx maxx, max miny maxy) := by
  unfold shBox mkPolygon
  simp only [closeRing]
  split_ifs with hif
  · have hx : minx = maxx := by
      have h1 : ([(maxx, miny), (maxx, maxy), (minx, maxy), (minx, miny)] :
          List (K × K)).getLast? = some (minx, miny) := rfl
      rw [h1] at hif
      have h2 := Option.some.inj hif
      exact congrArg Prod.fst h2
    subst hx
    simp only [geomBounds, List.map]
    have c1 : listMin minx [minx, minx, minx] = min minx minx :=
      listMin_pair minx minx _ (by simp) (by intro a ha; simp at ha; simp [ha])
    have c2 : listMin miny [maxy, maxy, miny] = min miny maxy :=
      listMin_pair miny maxy _ (by simp) (by intro a ha; simp at ha; tauto)
    have c3 : listMax minx [minx, minx, minx] = max minx minx :=
      listMax_pair minx minx _ (by simp) (by intro a ha; simp at ha; simp [ha])
    have c4 : listMax miny [maxy, maxy, miny] = max miny maxy :=
      listMax_pair miny maxy _ (by simp) (by intro a ha; simp at ha; tauto)
    rw [c1, c2, c3, c4]
  · simp only [List.cons_append, List.nil_append, geomBounds, List.map]
    have c1 : listMin maxx [maxx, minx, minx, maxx] = min maxx minx :=
      listMin_pair maxx minx _ (by simp) (by intro a ha; simp at ha; tauto)
    have c2 : listMin miny [maxy, maxy, miny, miny] = min miny maxy :=
      listMin_pair miny maxy _ (by simp) (by intro a ha; simp at ha; tauto)
    have c3 : listMax maxx [maxx, minx, minx, maxx] = max maxx minx :=
      listMax_pair maxx minx _ (by simp) (by intro a ha; simp at ha; tauto)
    have c4 : listMax miny [maxy, maxy, miny, miny] = max miny maxy :=
      listMax_pair miny maxy _ (by simp) (by intro a ha; simp at ha; tauto)
    rw [c1, c2, c3, c4, min_comm maxx minx, max_comm maxx minx]

theorem rect_app_bounds {K : Type} [LinearOrderedField K] [DecidableEq K]
    (G : GeoModel K) (fmt : K → String) (lat lon w h r : K) :
    app_bounds G fmt lat lon rectangleShape w h r =
      (min ((G.dest (lat, lon) (w / 2) 270).2) ((G.dest (lat, lon) (w / 2) 90).2),
       min ((G.dest (lat, lon) (h / 2) 180).1) ((G.dest (lat, lon) (h / 2) 0).1),
       max ((G.dest (lat, lon) (w / 2) 270).2) ((G.dest (lat, lon) (w / 2) 90).2),
       max ((G.dest (lat, lon) (h / 2) 180).1) ((G.dest (lat, lon) (h / 2) 0).1)) := by
  unfold app_bounds
  rw [generate_geometry_rect]
  exact geomBounds_shBox _ _ _ _

theorem circleSamplePoints_length {K : Type} [LinearOrderedField K]
    (G : GeoModel K) (lat lon radius_km : K) :
    (circleSamplePoints G lat lon radius_km).length = 73 := by
  unfold circleSamplePoints
  rw [List.length_map]
  unfold pyRange
  rw [List.length_map, List.length_range]

theorem generate_geometry_polygon_ne_nil {K : Type} [LinearOrderedField K] [DecidableEq K]
    (G : GeoModel K) (fmt : K → String) (lat lon : K) (shape : String) (w h r : K) :
    (generate_geometry G fmt lat lon shape w h r).1 ≠ [] := by
  by_cases hs : shape = rectangleShape
  · subst hs
    rw [generate_geometry_rect]
    dsimp only
    unfold shBox mkPolygon
    exact closeRing_ne_nil (by simp)
  · rw [generate_geometry_notRect G fmt lat lon w h r hs]
    dsimp only
    unfold generate_geodesic_circle mkPolygon
    refine closeRing_ne_nil ?_
    intro hnil
    have hlen := congrArg List.length hnil
    rw [circleSamplePoints_length] at hlen
    simp at hlen

theorem geomBounds_cons {K : Type} [LinearOrderedField K] (p : K × K) (rest : List (K × K)) :
    (∀ q ∈ p :: rest,
        (geomBounds (p :: rest)).1 ≤ q.1 ∧ (geomBounds (p :: rest)).2.1 ≤ q.2 ∧
        q.1 ≤ (geomBounds (p :: rest)).2.2.1 ∧ q.2 ≤ (geomBounds (p :: rest)).2.2.2) ∧
    (geomBounds (p :: rest)).1 ∈ (p :: rest).map Prod.fst ∧
    (geomBounds (p :: rest)).2.1 ∈ (p :: rest).map Prod.snd ∧
    (geomBounds (p :: rest)).2.2.1 ∈ (p :: rest).map Prod.fst ∧
    (geomBounds (p :: rest)).2.2.2 ∈ (p :: rest).map Prod.snd := by
  simp only [geomBounds]
  refine ⟨?_, ?_, ?_, ?_, ?_⟩
  · intro q hq
    rcases List.mem_cons.mp hq with h | h
    · subst h
      exact ⟨listMin_le_init _ _, listMin_le_init _ _, init_le_listMax _ _, init_le_listMax _ _⟩
    · exact ⟨listMin_le_of_mem _ _ (List.mem_map_of_mem Prod.fst h),
        listMin_le_of_mem _ _ (List.mem_map_of_mem Prod.snd h),
        le_listMax_of_mem _ _ (List.mem_map_of_mem Prod.fst h),
        le_listMax_of_mem _ _ (List.mem_map_of_mem Prod.snd h)⟩
  · rcases listMin_eq_init_or_mem (rest.map Prod.fst) p.1 with h | h
    · rw [List.map_cons, h]; exact List.mem_cons_self _ _
    · rw [List.map_cons]; exact List.mem_cons_of_mem _ h
  · rcases listMin_eq_init_or_mem (rest.map Prod.snd) p.2 with h | h
    · rw [List.map_cons, h]; exact List.mem_cons_self _ _
    · rw [List.map_cons]; exact List.mem_cons_of_mem _ h
  · rcases listMax_eq_init_or_mem (rest.map Prod.fst) p.1 with h | h
    · rw [List.map_cons, h]; exact List.mem_cons_self _ _
    · rw [List.map_cons]; exact List.mem_cons_of_mem _ h
  · rcases listMax_eq_init_or_mem (rest.map Prod.snd) p.2 with h | h
    · rw [List.map_cons, h]; exact List.mem_cons_self _ _
    · rw [List.map_cons]; exact List.mem_cons_of_mem _ h

/-
Head and last element of the circle sample list.
-/

theorem pyRange_circle_eq : pyRange 0 361 5 = (List.range 73).map (fun i => 0 + 5 * i) := rfl

theorem circleSamplePoints_head {K : Type} [LinearOrderedField K]
    (G : GeoModel K) (lat lon radius_km : K) :
    (circleSamplePoints G lat lon radius_km).head? =
      some ((G.dest (lat, lon) radius_km 0).2, (G.dest (lat, lon) radius_km 0).1) := by
  unfold circleSamplePoints
  rw [pyRange_circle_eq, show (73 : ℕ) = 72 + 1 from rfl, List.range_succ_eq_map]
  rw [List.map_cons, List.map_cons, List.head?_cons]
  norm_num

theorem circleSamplePoints_getLast {K : Type} [LinearOrderedField K]
    (G : GeoModel K) (lat lon radius_km : K) :
    (circleSamplePoints G lat lon radius_km).getLast? =
      some ((G.dest (lat, lon) radius_km 360).2, (G.dest (lat, lon) radius_km 360).1) := by
  unfold circleSamplePoints
  rw [pyRange_circle_eq, show (73 : ℕ) = 72 + 1 from rfl, List.range_succ]
  rw [List.map_append, List.map_append, List.map_singleton, List.map_singleton,
    List.getLast?_concat]
  norm_num

/-- Claim C1: for every center and positive radius, the circle branch samples
geodesic destination points at bearings 0, 5, ..., 360 (73 points, one every
5 degrees), each at radius_km ground distance from the center up to the given
tolerance when the geodesic model is inverse consistent, connected in bearing
order, and the ring closes exactly: the first sampled vertex equals the last
whenever the destination primitive agrees at bearings 0 and 360. -/
theorem C1_geodesic_circle {K : Type} [LinearOrderedField K] [DecidableEq K]
    (G : GeoModel K) (lat lon radius_km tol : K)
    (hcons : ∀ p b, |G.dist p (G.dest p radius_km b) - radius_km| ≤ tol)
    (hper : G.dest (lat, lon) radius_km 360 = G.dest (lat, lon) radius_km 0) :
    generate_geodesic_circle G lat lon radius_km = circleSamplePoints G lat lon radius_km ∧
    (circleSamplePoints G lat lon radius_km).length = 73 ∧
    (∀ q ∈ circleSamplePoints G lat lon radius_km,
        |G.dist (lat, lon) (q.2, q.1) - radius_km| ≤ tol) ∧
    (circleSamplePoints G lat lon radius_km).head? =
      (circleSamplePoints G lat lon radius_km).getLast? := by
  have hclosed : (circleSamplePoints G lat lon radius_km).head? =
      (circleSamplePoints G lat lon radius_km).getLast? := by
    rw [circleSamplePoints_head, circleSamplePoints_getLast, hper]
  refine ⟨?_, circleSamplePoints_length G lat lon radius_km, ?_, hclosed⟩
  · unfold generate_geodesic_circle mkPolygon
    exact closeRing_eq_of_closed hclosed.symm
  · intro q hq
    unfold circleSamplePoints at hq
    rcases List.mem_map.mp hq with ⟨b, _, hqe⟩
    subst hqe
    exact hcons (lat, lon) (b : K)

theorem flatGeo_dist_dest (d : ℚ) (hd : 0 ≤ d) (p : ℚ × ℚ) (b : ℚ) :
    flatGeo.dist p (flatGeo.dest p d b) = d := by
  simp only [flatGeo]
  unfold taxiDist
  split_ifs <;> simp [abs_of_nonneg hd]

theorem flatGeo_dest_per (d : ℚ) (p : ℚ × ℚ) :
    flatGeo.dest p d 360 = flatGeo.dest p d 0 := by
  norm_num [flatGeo]

/-- Witness for C1: the generic theorem applied to the inverse-consistent
rational geodesic model at center (34, 110) with radius 5 and tolerance
0.1 percent of the radius. -/
theorem C1_geodesic_circle_witness :
    (∀ (p : ℚ × ℚ) (b : ℚ), |flatGeo.dist p (flatGeo.dest p (5 : ℚ) b) - 5| ≤ 1 / 200) ∧
    flatGeo.dest ((34 : ℚ), (110 : ℚ)) 5 360 = flatGeo.dest (34, 110) 5 0 ∧
    (generate_geodesic_circle flatGeo 34 110 5 = circleSamplePoints flatGeo 34 110 5 ∧
     (circleSamplePoints flatGeo 34 110 (5 : ℚ)).length = 73 ∧
     (∀ q ∈ circleSamplePoints flatGeo 34 110 (5 : ℚ),
        |flatGeo.dist (34, 110) (q.2, q.1) - 5| ≤ 1 / 200) ∧
     (circleSamplePoints flatGeo 34 110 (5 : ℚ)).head? =
       (circleSamplePoints flatGeo 34 110 (5 : ℚ)).getLast?) := by
  have h1 : ∀ (p : ℚ × ℚ) (b : ℚ), |flatGeo.dist p (flatGeo.dest p (5 : ℚ) b) - 5| ≤ 1 / 200 := by
    intro p b
    rw [flatGeo_dist_dest 5 (by norm_num) p b]
    norm_num
  have h2 : flatGeo.dest ((34 : ℚ), (110 : ℚ)) 5 360 = flatGeo.dest (34, 110) 5 0 :=
    flatGeo_dest_per 5 (34, 110)
  exact ⟨h1, h2, C1_geodesic_circle flatGeo 34 110 5 (1 / 200) h1 h2⟩

/-- Claim C4: for every center and dimensions, the rectangle branch of
generate_geometry computes north, south, east and west by projecting the
center at bearings 0, 180, 90 and 270 over half the height or width, passes
(west, south, east, north) to box, and every vertex of the resulting polygon
lies on one of those four coordinate values. -/
theorem C4_rect_destinations {K : Type} [LinearOrderedField K] [DecidableEq K]
    (G : GeoModel K) (fmt : K → String) (lat lon w h r : K) :
    generate_geometry G fmt lat lon rectangleShape w h r =
      (shBox ((G.dest (lat, lon) (w / 2) 270).2) ((G.dest (lat, lon) (h / 2) 180).1)
             ((G.dest (lat, lon) (w / 2) 90).2) ((G.dest (lat, lon) (h / 2) 0).1),
       fmt w ++ "x" ++ fmt h ++ "km") ∧
    (∀ q ∈ (generate_geometry G fmt lat lon rectangleShape w h r).1,
      (q.1 = (G.dest (lat, lon) (w / 2) 270).2 ∨ q.1 = (G.dest (lat, lon) (w / 2) 90).2) ∧
      (q.2 = (G.dest (lat, lon) (h / 2) 180).1 ∨ q.2 = (G.dest (lat, lon) (h / 2) 0).1)) := by
  refine ⟨generate_geometry_rect G fmt lat lon w h r, ?_⟩
  intro q hq
  rw [generate_geometry_rect] at hq
  dsimp only at hq
  unfold shBox mkPolygon at hq
  rw [mem_closeRing] at hq
  simp only [List.mem_cons, List.mem_singleton, List.not_mem_nil, or_false] at hq
  rcases hq with h1 | h1 | h1 | h1 <;> subst h1 <;> simp

/-- Witness for C4 at the rational model, center (0, 0), a 10 by 10 rectangle. -/
theorem C4_rect_destinations_witness :
    generate_geometry flatGeo fmtQ 0 0 rectangleShape 10 10 0 =
      (shBox ((flatGeo.dest ((0 : ℚ), (0 : ℚ)) (10 / 2) 270).2)
             ((flatGeo.dest ((0 : ℚ), (0 : ℚ)) (10 / 2) 180).1)
             ((flatGeo.dest ((0 : ℚ), (0 : ℚ)) (10 / 2) 90).2)
             ((flatGeo.dest ((0 : ℚ), (0 : ℚ)) (10 / 2) 0).1),
       fmtQ 10 ++ "x" ++ fmtQ 10 ++ "km") ∧
    (∀ q ∈ (generate_geometry flatGeo fmtQ 0 0 rectangleShape 10 10 0).1,
      (q.1 = (flatGeo.dest ((0 : ℚ), (0 : ℚ)) (10 / 2) 270).2 ∨
       q.1 = (flatGeo.dest ((0 : ℚ), (0 : ℚ)) (10 / 2) 90).2) ∧
      (q.2 = (flatGeo.dest ((0 : ℚ), (0 : ℚ)) (10 / 2) 180).1 ∨
       q.2 = (flatGeo.dest ((0 : ℚ), (0 : ℚ)) (10 / 2) 0).1)) :=
  C4_rect_destinations flatGeo fmtQ 0 0 10 10 0

/-- Claim C7: the size label depends only on the shape parameters, never on
the center: it is the same for any two centers, equals width x height km for
the rectangle shape and R radius km for the circle shape. -/
theorem C7_size_label {K : Type} [LinearOrderedField K] [DecidableEq K]
    (G : GeoModel K) (fmt : K → String) (lat lon lat2 lon2 : K) (shape : String)
    (w h r : K) :
    (generate_geometry G fmt lat lon shape w h r).2 =
      (generate_geometry G fmt lat2 lon2 shape w h r).2 ∧
    (generate_geometry G fmt lat lon rectangleShape w h r).2 =
      fmt w ++ "x" ++ fmt h ++ "km" ∧
    (generate_geometry G fmt lat lon circleShape w h r).2 = "R" ++ fmt r ++ "km" := by
  refine ⟨?_, ?_, ?_⟩
  · unfold generate_geometry
    split_ifs <;> rfl
  · rw [generate_geometry_rect]
  · rw [generate_geometry_notRect G fmt lat lon w h r (by decide)]

/-- Witness for C7 at two distinct centers with a 10 by 20 rectangle and
radius 5. -/
theorem C7_size_label_witness :
    (generate_geometry flatGeo fmtQ 1 2 rectangleShape 10 20 5).2 =
      (generate_geometry flatGeo fmtQ 3 4 rectangleShape 10 20 5).2 ∧
    (generate_geometry flatGeo fmtQ 1 2 rectangleShape 10 20 5).2 =
      fmtQ 10 ++ "x" ++ fmtQ 20 ++ "km" ∧
    (generate_geometry flatGeo fmtQ 1 2 circleShape 10 20 5).2 = "R" ++ fmtQ 5 ++ "km" :=
  C7_size_label flatGeo fmtQ 1 2 3 4 rectangleShape 10 20 5

/-- Claim C2 counterexample: the code does not sort the four projected
coordinates before box construction.  With a destination model that wraps
longitudes across the antimeridian, at center (0, 179) with a 10 by 10
rectangle the projected east longitude is smaller than the projected west
longitude, and the polygon generate_geometry builds differs from the polygon
built after sorting as the claim describes. -/
theorem C2_sorted_before_box_counterexample :
    (generate_geometry wrapGeo fmtQ 0 179 rectangleShape 10 10 0).1 ≠
      (generate_geometry_sortedSpec wrapGeo fmtQ 0 179 rectangleShape 10 10 0).1 := by
  norm_num [generate_geometry, generate_geometry_sortedSpec, wrapGeo, wrapLon, shBox,
    mkPolygon, closeRing, rectangleShape, List.getLast?, Prod.ext_iff]

/-- Claim C2 (amended): the rectangle bounding box the app derives from the
polygon satisfies min longitude at most max longitude and min latitude at most
max latitude for all inputs, and strictly whenever the projected west and east
longitudes, respectively south and north latitudes, are distinct; the ordering
comes from the vertex-extrema bounds computation, not from sorting before box
construction. -/
theorem C2_rect_bbox_invariant {K : Type} [LinearOrderedField K] [DecidableEq K]
    (G : GeoModel K) (fmt : K → String) (lat lon w h r : K) :
    ((app_bounds G fmt lat lon rectangleShape w h r).1 ≤
        (app_bounds G fmt lat lon rectangleShape w h r).2.2.1 ∧
     (app_bounds G fmt lat lon rectangleShape w h r).2.1 ≤
        (app_bounds G fmt lat lon rectangleShape w h r).2.2.2) ∧
    ((G.dest (lat, lon) (w / 2) 270).2 ≠ (G.dest (lat, lon) (w / 2) 90).2 →
      (app_bounds G fmt lat lon rectangleShape w h r).1 <
        (app_bounds G fmt lat lon rectangleShape w h r).2.2.1) ∧
    ((G.dest (lat, lon) (h / 2) 180).1 ≠ (G.dest (lat, lon) (h / 2) 0).1 →
      (app_bounds G fmt lat lon rectangleShape w h r).2.1 <
        (app_bounds G fmt lat lon rectangleShape w h r).2.2.2) := by
  rw [rect_app_bounds]
  exact ⟨⟨min_le_max, min_le_max⟩, fun hne => min_lt_max.mpr hne,
    fun hne => min_lt_max.mpr hne⟩

/-- Witness for C2 at the rational model, center (0, 0), a 10 by 10
rectangle: the projections are distinct and the bounding box is strictly
ordered on both axes. -/
theorem C2_rect_bbox_invariant_witness :
    (flatGeo.dest ((0 : ℚ), (0 : ℚ)) (10 / 2) 270).2 ≠
      (flatGeo.dest ((0 : ℚ), (0 : ℚ)) (10 / 2) 90).2 ∧
    (flatGeo.dest ((0 : ℚ), (0 : ℚ)) (10 / 2) 180).1 ≠
      (flatGeo.dest ((0 : ℚ), (0 : ℚ)) (10 / 2) 0).1 ∧
    ((app_bounds flatGeo fmtQ 0 0 rectangleShape 10 10 0).1 <
      (app_bounds flatGeo fmtQ 0 0 rectangleShape 10 10 0).2.2.1 ∧
     (app_bounds flatGeo fmtQ 0 0 rectangleShape 10 10 0).2.1 <
      (app_bounds flatGeo fmtQ 0 0 rectangleShape 10 10 0).2.2.2) := by
  have hEW : (flatGeo.dest ((0 : ℚ), (0 : ℚ)) (10 / 2) 270).2 ≠
      (flatGeo.dest ((0 : ℚ), (0 : ℚ)) (10 / 2) 90).2 := by
    norm_num [flatGeo]
  have hNS : (flatGeo.dest ((0 : ℚ), (0 : ℚ)) (10 / 2) 180).1 ≠
      (flatGeo.dest ((0 : ℚ), (0 : ℚ)) (10 / 2) 0).1 := by
    norm_num [flatGeo]
  refine ⟨hEW, hNS,
    (C2_rect_bbox_invariant flatGeo fmtQ 0 0 10 10 0).2.1 hEW,
    (C2_rect_bbox_invariant flatGeo fmtQ 0 0 10 10 0).2.2 hNS⟩

/-- Claim C3 counterexample: with zero requested dimensions the generator
performs no widening: at center (0, 0) with width = height = 0 the bounding
box collapses, its minimum longitude is not strictly below its maximum
longitude. -/
theorem C3_zero_widening_counterexample :
    ¬ ((app_bounds flatGeo fmtQ 0 0 rectangleShape 0 0 0).1 <
        (app_bounds flatGeo fmtQ 0 0 rectangleShape 0 0 0).2.2.1) := by
  norm_num [app_bounds, generate_geometry, flatGeo, shBox, mkPolygon, closeRing,
    rectangleShape, geomBounds, listMin, listMax, List.getLast?, Prod.ext_iff]

/-- Claim C3 (amended): the generator widens nothing: when the requested
width and height are zero and the destination primitive maps distance 0 back
to the center, the rectangle bounding box degenerates to
(lon, lat, lon, lat), with min equal to max on both axes. -/
theorem C3_zero_dims_degenerate {K : Type} [LinearOrderedField K] [DecidableEq K]
    (G : GeoModel K) (fmt : K → String) (lat lon r : K)
    (h0 : ∀ b, G.dest (lat, lon) 0 b = (lat, lon)) :
    app_bounds G fmt lat lon rectangleShape 0 0 r = (lon, lat, lon, lat) := by
  rw [rect_app_bounds]
  rw [show (0 : K) / 2 = 0 from zero_div 2]
  rw [h0 270, h0 90, h0 180, h0 0]
  simp

theorem flatGeo_dest_zero (p : ℚ × ℚ) (b : ℚ) : flatGeo.dest p 0 b = p := by
  simp only [flatGeo]
  split_ifs <;> simp

/-- Witness for C3 (amended) at center (7, 11). -/
theorem C3_zero_dims_degenerate_witness :
    (∀ b : ℚ, flatGeo.dest ((7 : ℚ), (11 : ℚ)) 0 b = (7, 11)) ∧
    app_bounds flatGeo fmtQ 7 11 rectangleShape 0 0 0 = (11, 7, 11, 7) := by
  have h0 : ∀ b : ℚ, flatGeo.dest ((7 : ℚ), (11 : ℚ)) 0 b = (7, 11) :=
    fun b => flatGeo_dest_zero (7, 11) b
  exact ⟨h0, C3_zero_dims_degenerate flatGeo fmtQ 7 11 0 h0⟩

theorem abs_mid_le {K : Type} [LinearOrderedField K] {a b c d : K}
    (hab : |a + b - 2 * c| ≤ 2 * d) : |(min a b + max a b) / 2 - c| ≤ d := by
  rw [min_add_max]
  rw [show (a + b) / 2 - c = (a + b - 2 * c) / 2 from by ring, abs_div, abs_two]
  linarith

/-- Claim C6: when the destination primitive is symmetric up to 2 times d on
each axis, the midpoint of the generated rectangle bounding-box diagonal is
within d of the center on each coordinate. -/
theorem C6_rect_midpoint {K : Type} [LinearOrderedField K] [DecidableEq K]
    (G : GeoModel K) (fmt : K → String) (lat lon w h r d : K)
    (hEW : |(G.dest (lat, lon) (w / 2) 270).2 + (G.dest (lat, lon) (w / 2) 90).2 -
      2 * lon| ≤ 2 * d)
    (hNS : |(G.dest (lat, lon) (h / 2) 180).1 + (G.dest (lat, lon) (h / 2) 0).1 -
      2 * lat| ≤ 2 * d) :
    |((app_bounds G fmt lat lon rectangleShape w h r).1 +
      (app_bounds G fmt lat lon rectangleShape w h r).2.2.1) / 2 - lon| ≤ d ∧
    |((app_bounds G fmt lat lon rectangleShape w h r).2.1 +
      (app_bounds G fmt lat lon rectangleShape w h r).2.2.2) / 2 - lat| ≤ d := by
  rw [rect_app_bounds]
  exact ⟨abs_mid_le hEW, abs_mid_le hNS⟩

/-- Witness for C6 at the rational model, center (3, 4), a 10 by 10
rectangle, tolerance 0. -/
theorem C6_rect_midpoint_witness :
    |(flatGeo.dest ((3 : ℚ), (4 : ℚ)) (10 / 2) 270).2 +
      (flatGeo.dest ((3 : ℚ), (4 : ℚ)) (10 / 2) 90).2 - 2 * 4| ≤ 2 * 0 ∧
    |(flatGeo.dest ((3 : ℚ), (4 : ℚ)) (10 / 2) 180).1 +
      (flatGeo.dest ((3 : ℚ), (4 : ℚ)) (10 / 2) 0).1 - 2 * 3| ≤ 2 * 0 ∧
    (|((app_bounds flatGeo fmtQ 3 4 rectangleShape 10 10 0).1 +
       (app_bounds flatGeo fmtQ 3 4 rectangleShape 10 10 0).2.2.1) / 2 - 4| ≤ 0 ∧
     |((app_bounds flatGeo fmtQ 3 4 rectangleShape 10 10 0).2.1 +
       (app_bounds flatGeo fmtQ 3 4 rectangleShape 10 10 0).2.2.2) / 2 - 3| ≤ 0) := by
  have hEW : |(flatGeo.dest ((3 : ℚ), (4 : ℚ)) (10 / 2) 270).2 +
      (flatGeo.dest ((3 : ℚ), (4 : ℚ)) (10 / 2) 90).2 - 2 * 4| ≤ 2 * 0 := by
    norm_num [flatGeo]
  have hNS : |(flatGeo.dest ((3 : ℚ), (4 : ℚ)) (10 / 2) 180).1 +
      (flatGeo.dest ((3 : ℚ), (4 : ℚ)) (10 / 2) 0).1 - 2 * 3| ≤ 2 * 0 := by
    norm_num [flatGeo]
  exact ⟨hEW, hNS, C6_rect_midpoint flatGeo fmtQ 3 4 10 10 0 0 hEW hNS⟩

/-- Claim C5: for every center and shape request, the bounding box the app
uses equals the vertex extrema of the final polygon: every vertex lies inside
it and each of its four coordinates is attained by some vertex, so box and
polygon are mutually consistent. -/
theorem C5_bounds_from_vertex_extrema {K : Type} [LinearOrderedField K] [DecidableEq K]
    (G : GeoModel K) (fmt : K → String) (lat lon : K) (shape : String) (w h r : K) :
    app_bounds G fmt lat lon shape w h r =
      geomBounds ((generate_geometry G fmt lat lon shape w h r).1) ∧
    (∀ q ∈ (generate_geometry G fmt lat lon shape w h r).1,
        (app_bounds G fmt lat lon shape w h r).1 ≤ q.1 ∧
        (app_bounds G fmt lat lon shape w h r).2.1 ≤ q.2 ∧
        q.1 ≤ (app_bounds G fmt lat lon shape w h r).2.2.1 ∧
        q.2 ≤ (app_bounds G fmt lat lon shape w h r).2.2.2) ∧
    ((app_bounds G fmt lat lon shape w h r).1 ∈
        ((generate_geometry G fmt lat lon shape w h r).1).map Prod.fst ∧
     (app_bounds G fmt lat lon shape w h r).2.1 ∈
        ((generate_geometry G fmt lat lon shape w h r).1).map Prod.snd ∧
     (app_bounds G fmt lat lon shape w h r).2.2.1 ∈
        ((generate_geometry G fmt lat lon shape w h r).1).map Prod.fst ∧
     (app_bounds G fmt lat lon shape w h r).2.2.2 ∈
        ((generate_geometry G fmt lat lon shape w h r).1).map Prod.snd) := by
  have hne := generate_geometry_polygon_ne_nil G fmt lat lon shape w h r
  rcases List.exists_cons_of_ne_nil hne with ⟨p, rest, hP⟩
  unfold app_bounds
  rw [hP]
  exact ⟨rfl, (geomBounds_cons p rest).1, (geomBounds_cons p rest).2⟩

/-- Witness for C5 at the rational model, center (2, 3), circle of radius 5. -/
theorem C5_bounds_from_vertex_extrema_witness :
    app_bounds flatGeo fmtQ 2 3 circleShape 1 1 5 =
      geomBounds ((generate_geometry flatGeo fmtQ 2 3 circleShape 1 1 5).1) ∧
    (∀ q ∈ (generate_geometry flatGeo fmtQ 2 3 circleShape 1 1 5).1,
        (app_bounds flatGeo fmtQ 2 3 circleShape 1 1 5).1 ≤ q.1 ∧
        (app_bounds flatGeo fmtQ 2 3 circleShape 1 1 5).2.1 ≤ q.2 ∧
        q.1 ≤ (app_bounds flatGeo fmtQ 2 3 circleShape 1 1 5).2.2.1 ∧
        q.2 ≤ (app_bounds flatGeo fmtQ 2 3 circleShape 1 1 5).2.2.2) ∧
    ((app_bounds flatGeo fmtQ 2 3 circleShape 1 1 5).1 ∈
        ((generate_geometry flatGeo fmtQ 2 3 circleShape 1 1 5).1).map Prod.fst ∧
     (app_bounds flatGeo fmtQ 2 3 circleShape 1 1 5).2.1 ∈
        ((generate_geometry flatGeo fmtQ 2 3 circleShape 1 1 5).1).map Prod.snd ∧
     (app_bounds flatGeo fmtQ 2 3 circleShape 1 1 5).2.2.1 ∈
        ((generate_geometry flatGeo fmtQ 2 3 circleShape 1 1 5).1).map Prod.fst ∧
     (app_bounds flatGeo fmtQ 2 3 circleShape 1 1 5).2.2.2 ∈
        ((generate_geometry flatGeo fmtQ 2 3 circleShape 1 1 5).1).map Prod.snd) :=
  C5_bounds_from_vertex_extrema flatGeo fmtQ 2 3 circleShape 1 1 5

/-- Claim C9: for every valid center and positive dimensions,
generate_geometry is total: it returns a nonempty closed polygon ring of at
least 4 vertices together with one of the two label formats, for either
shape, with no failure case. -/
theorem C9_generate_total {K : Type} [LinearOrderedField K] [DecidableEq K]
    (G : GeoModel K) (fmt : K → String) (lat lon : K) (shape : String) (w h r : K)
    (hlat1 : -90 ≤ lat) (hlat2 : lat ≤ 90) (hlon1 : -180 ≤ lon) (hlon2 : lon ≤ 180)
    (hw : 0 < w) (hh : 0 < h) (hr : 0 < r) :
    (generate_geometry G fmt lat lon shape w h r).1 ≠ [] ∧
    ((generate_geometry G fmt lat lon shape w h r).1).head? =
      ((generate_geometry G fmt lat lon shape w h r).1).getLast? ∧
    4 ≤ ((generate_geometry G fmt lat lon shape w h r).1).length ∧
    ((generate_geometry G fmt lat lon shape w h r).2 = fmt w ++ "x" ++ fmt h ++ "km" ∨
     (generate_geometry G fmt lat lon shape w h r).2 = "R" ++ fmt r ++ "km") := by
  refine ⟨generate_geometry_polygon_ne_nil G fmt lat lon shape w h r, ?_, ?_, ?_⟩
  · by_cases hs : shape = rectangleShape
    · subst hs
      rw [generate_geometry_rect]
      dsimp only
      unfold shBox mkPolygon
      exact closeRing_head_getLast (by simp)
    · rw [generate_geometry_notRect G fmt lat lon w h r hs]
      dsimp only
      unfold generate_geodesic_circle mkPolygon
      refine closeRing_head_getLast ?_
      intro hnil
      have hlen := congrArg List.length hnil
      rw [circleSamplePoints_length] at hlen
      simp at hlen
  · by_cases hs : shape = rectangleShape
    · subst hs
      rw [generate_geometry_rect]
      dsimp only
      unfold shBox mkPolygon
      exact le_trans (by simp) (length_le_closeRing _)
    · rw [generate_geometry_notRect G fmt lat lon w h r hs]
      dsimp only
      unfold generate_geodesic_circle mkPolygon
      refine le_trans ?_ (length_le_closeRing _)
      rw [circleSamplePoints_length]
      norm_num
  · by_cases hs : shape = rectangleShape
    · subst hs
      rw [generate_geometry_rect]
      exact Or.inl rfl
    · rw [generate_geometry_notRect G fmt lat lon w h r hs]
      exact Or.inr rfl

/-- Witness for C9 at the rational model, the circle shape, center (34, 110),
dimensions 20, 20 and radius 10. -/
theorem C9_generate_total_witness :
    ((-90 : ℚ) ≤ 34 ∧ (34 : ℚ) ≤ 90 ∧ (-180 : ℚ) ≤ 110 ∧ (110 : ℚ) ≤ 180 ∧
     (0 : ℚ) < 20 ∧ (0 : ℚ) < 10) ∧
    ((generate_geometry flatGeo fmtQ 34 110 circleShape 20 20 10).1 ≠ [] ∧
     ((generate_geometry flatGeo fmtQ 34 110 circleShape 20 20 10).1).head? =
       ((generate_geometry flatGeo fmtQ 34 110 circleShape 20 20 10).1).getLast? ∧
     4 ≤ ((generate_geometry flatGeo fmtQ 34 110 circleShape 20 20 10).1).length ∧
     ((generate_geometry flatGeo fmtQ 34 110 circleShape 20 20 10).2 =
        fmtQ 20 ++ "x" ++ fmtQ 20 ++ "km" ∨
      (generate_geometry flatGeo fmtQ 34 110 circleShape 20 20 10).2 =
        "R" ++ fmtQ 10 ++ "km")) := by
  refine ⟨⟨by norm_num, by norm_num, by norm_num, by norm_num, by norm_num, by norm_num⟩, ?_⟩
  exact C9_generate_total flatGeo fmtQ 34 110 circleShape 20 20 10 (by norm_num)
    (by norm_num) (by norm_num) (by norm_num) (by norm_num) (by norm_num) (by norm_num)

theorem pyRound5_exists_int {K : Type} [LinearOrderedField K] [FloorRing K] (x : K) :
    ∃ k : ℤ, pyRound5 x = (k : K) / 100000 := by
  unfold pyRound5
  split_ifs with h1 h2 h3
  · exact ⟨⌊x * 100000⌋, rfl⟩
  · exact ⟨⌊x * 100000⌋ + 1, rfl⟩
  · exact ⟨⌊x * 100000⌋, rfl⟩
  · exact ⟨⌊x * 100000⌋ + 1, rfl⟩

theorem div_100000_abs_bound {K : Type} [LinearOrderedField K] {n y : K}
    (hny : |n - y| ≤ 1 / 2) : |n / 100000 - y / 100000| ≤ 1 / 200000 := by
  rw [show n / 100000 - y / 100000 = (n - y) / 100000 from by ring, abs_div,
    show |(100000 : K)| = 100000 from abs_of_pos (by norm_num)]
  rw [div_le_div_iff₀ (by norm_num) (by norm_num)]
  linarith

theorem pyRound5_abs_le {K : Type} [LinearOrderedField K] [FloorRing K] (x : K) :
    |pyRound5 x - x| ≤ 1 / 200000 := by
  have hf1 : (⌊x * 100000⌋ : K) ≤ x * 100000 := Int.floor_le (x * 100000)
  have hf2 : x * 100000 < (⌊x * 100000⌋ : K) + 1 := Int.lt_floor_add_one (x * 100000)
  have hxx : x * 100000 / 100000 = x := mul_div_cancel_right₀ x (by norm_num)
  unfold pyRound5
  split_ifs with h1 h2 h3
  · have hb : |((⌊x * 100000⌋ : ℤ) : K) - x * 100000| ≤ 1 / 2 := by
      rw [abs_sub_comm, abs_of_nonneg (by linarith)]
      linarith
    have := div_100000_abs_bound hb
    rwa [hxx] at this
  · have hb : |(((⌊x * 100000⌋ + 1 : ℤ)) : K) - x * 100000| ≤ 1 / 2 := by
      push_cast
      rw [abs_of_nonneg (by linarith)]
      linarith
    have := div_100000_abs_bound hb
    rwa [hxx] at this
  · have hb : |((⌊x * 100000⌋ : ℤ) : K) - x * 100000| ≤ 1 / 2 := by
      rw [abs_sub_comm, abs_of_nonneg (by linarith)]
      linarith
    have := div_100000_abs_bound hb
    rwa [hxx] at this
  · have hb : |(((⌊x * 100000⌋ + 1 : ℤ)) : K) - x * 100000| ≤ 1 / 2 := by
      push_cast
      rw [abs_of_nonneg (by linarith)]
      linarith
    have := div_100000_abs_bound hb
    rwa [hxx] at this

/-- Claim C8: each of the four bounding-box coordinates is rounded to exactly
5 decimal places before being placed into the request parameters: the west,
south, east and north parameters are the rounded minx, miny, maxx, maxy, and
the rounding returns an integer multiple of 10⁻⁵ within half of 10⁻⁵ of its
input. -/
theorem C8_params_rounded {K : Type} [LinearOrderedField K] [FloorRing K]
    (bounds : K × K × K × K) (api_key : String) :
    (opentopo_params bounds api_key).west = pyRound5 bounds.1 ∧
    (opentopo_params bounds api_key).south = pyRound5 bounds.2.1 ∧
    (opentopo_params bounds api_key).east = pyRound5 bounds.2.2.1 ∧
    (opentopo_params bounds api_key).north = pyRound5 bounds.2.2.2 ∧
    (∀ x : K, (∃ k : ℤ, pyRound5 x = (k : K) / 100000) ∧ |pyRound5 x - x| ≤ 1 / 200000) :=
  ⟨rfl, rfl, rfl, rfl, fun x => ⟨pyRound5_exists_int x, pyRound5_abs_le x⟩⟩

/-- Witness for C8 at concrete rational bounds. -/
theorem C8_params_rounded_witness :
    (opentopo_params ((1 / 3 : ℚ), (2 / 7 : ℚ), (5 / 11 : ℚ), (4 / 9 : ℚ)) "k").west =
      pyRound5 ((1 : ℚ) / 3) ∧
    (opentopo_params ((1 / 3 : ℚ), (2 / 7 : ℚ), (5 / 11 : ℚ), (4 / 9 : ℚ)) "k").south =
      pyRound5 ((2 : ℚ) / 7) ∧
    (opentopo_params ((1 / 3 : ℚ), (2 / 7 : ℚ), (5 / 11 : ℚ), (4 / 9 : ℚ)) "k").east =
      pyRound5 ((5 : ℚ) / 11) ∧
    (opentopo_params ((1 / 3 : ℚ), (2 / 7 : ℚ), (5 / 11 : ℚ), (4 / 9 : ℚ)) "k").north =
      pyRound5 ((4 : ℚ) / 9) ∧
    (∀ x : ℚ, (∃ k : ℤ, pyRound5 x = (k : ℚ) / 100000) ∧ |pyRound5 x - x| ≤ 1 / 200000) :=
  C8_params_rounded ((1 / 3 : ℚ), (2 / 7 : ℚ), (5 / 11 : ℚ), (4 / 9 : ℚ)) "k"

/-- Claim C10: fetch_opentopo_dem never raises: the success flag is true
exactly when the request outcome is a response with status 200 whose
Content-Type does not contain text/html, in which case the payload is the raw
response bytes; in every other case, including a raised exception, the result
is false together with a message string. -/
theorem C10_fetch_result {K : Type} [LinearOrderedField K] [FloorRing K]
    (bounds : K × K × K × K) (api_key : String)
    (doRequest : DemParams K → HttpOutcome) :
    ((fetch_opentopo_dem bounds api_key doRequest).1 = true ↔
      ∃ resp, doRequest (opentopo_params bounds api_key) = HttpOutcome.resp resp ∧
        resp.status = 200 ∧
        strContainsSub ("text/html") (resp.contentTypeHeader.getD ("")) = false) ∧
    (∀ resp, doRequest (opentopo_params bounds api_key) = HttpOutcome.resp resp →
      resp.status = 200 →
      strContainsSub ("text/html") (resp.contentTypeHeader.getD ("")) = false →
      (fetch_opentopo_dem bounds api_key doRequest).2 = FetchPayload.content resp.body) ∧
    ((fetch_opentopo_dem bounds api_key doRequest).1 = false →
      ∃ msg, (fetch_opentopo_dem bounds api_key doRequest).2 = FetchPayload.message msg) := by
  unfold fetch_opentopo_dem
  cases hreq : doRequest (opentopo_params bounds api_key) with
  | resp r =>
    dsimp only
    by_cases h200 : r.status = 200
    · by_cases hhtml :
          strContainsSub ("text/html") (r.contentTypeHeader.getD ("")) = true
      · rw [if_pos h200, if_pos hhtml]
        refine ⟨?_, ?_, ?_⟩
        · simp only [Bool.false_eq_true, false_iff]
          rintro ⟨resp, hr, _, h3⟩
          rw [HttpOutcome.resp.injEq] at hr
          rw [← hr, hhtml] at h3
          exact absurd h3 (by simp)
        · intro resp hr _ h3
          rw [HttpOutcome.resp.injEq] at hr
          rw [← hr, hhtml] at h3
          exact absurd h3 (by simp)
        · intro _
          exact ⟨("API Error: ") ++ r.text.take 200, rfl⟩
      · rw [Bool.not_eq_true] at hhtml
        have hh2 : ¬ (strContainsSub ("text/html") (r.contentTypeHeader.getD ("")) = true) := by
          rw [hhtml]
          simp
        rw [if_pos h200, if_neg hh2]
        refine ⟨?_, ?_, ?_⟩
        · simp only [true_iff]
          exact ⟨r, rfl, h200, hhtml⟩
        · intro resp hr _ _
          rw [HttpOutcome.resp.injEq] at hr
          rw [← hr]
        · intro hfalse
          exact absurd hfalse (by simp)
    · rw [if_neg h200]
      refine ⟨?_, ?_, ?_⟩
      · simp only [Bool.false_eq_true, false_iff]
        rintro ⟨resp, hr, h2, _⟩
        rw [HttpOutcome.resp.injEq] at hr
        rw [← hr] at h2
        exact h200 h2
      · intro resp hr h2 _
        rw [HttpOutcome.resp.injEq] at hr
        rw [← hr] at h2
        exact absurd h2 h200
      · intro _
        exact ⟨("HTTP Error ") ++ toString r.status ++ (": ") ++ r.reason, rfl⟩
  | exc e =>
    dsimp only
    refine ⟨?_, ?_, ?_⟩
    · simp only [Bool.false_eq_true, false_iff]
      rintro ⟨resp, hr, _, _⟩
      exact absurd hr (by simp)
    · intro resp hr _ _
      exact absurd hr (by simp)
    · intro _
      exact ⟨e, rfl⟩

/-- Concrete request outcome used to instantiate the fetch theorem: a 200
response carrying a GeoTIFF payload. -/
def demoResponse : HttpResponse :=
  { status := 200, contentTypeHeader := some ("application/octet-stream"),
    body := [1, 2, 3], text := "", reason := "OK" }

def demoRequest {K : Type} : DemParams K → HttpOutcome :=
  fun _ => HttpOutcome.resp demoResponse

/-- Witness for C10 at concrete rational bounds and the demo transport. -/
theorem C10_fetch_result_witness :
    ((fetch_opentopo_dem ((0 : ℚ), (0 : ℚ), (1 : ℚ), (1 : ℚ)) "k" demoRequest).1 = true ↔
      ∃ resp, demoRequest (opentopo_params ((0 : ℚ), (0 : ℚ), (1 : ℚ), (1 : ℚ)) "k") =
          HttpOutcome.resp resp ∧
        resp.status = 200 ∧
        strContainsSub ("text/html") (resp.contentTypeHeader.getD ("")) = false) ∧
    (∀ resp, demoRequest (opentopo_params ((0 : ℚ), (0 : ℚ), (1 : ℚ), (1 : ℚ)) "k") =
        HttpOutcome.resp resp →
      resp.status = 200 →
      strContainsSub ("text/html") (resp.contentTypeHeader.getD ("")) = false →
      (fetch_opentopo_dem ((0 : ℚ), (0 : ℚ), (1 : ℚ), (1 : ℚ)) "k" demoRequest).2 =
        FetchPayload.content resp.body) ∧
    ((fetch_opentopo_dem ((0 : ℚ), (0 : ℚ), (1 : ℚ), (1 : ℚ)) "k" demoRequest).1 = false →
      ∃ msg, (fetch_opentopo_dem ((0 : ℚ), (0 : ℚ), (1 : ℚ), (1 : ℚ)) "k" demoRequest).2 =
        FetchPayload.message msg) :=
  C10_fetch_result ((0 : ℚ), (0 : ℚ), (1 : ℚ), (1 : ℚ)) "k" demoRequest
